import Mathlib

/-!
# Shallow embedding of `src/integrationapp.py`

This file embeds the integration engine of the repository: the
multi-strategy symbolic-integration fallback `try_integration`, the plot
builder `create_plot`, and the request handler `main` (the computation
triggered by the Calculate button), together with the sample-domain
construction `np.linspace(lower - margin, upper + margin, 1000)`.

Modelling conventions:
* Machine reals are modelled as `ℚ`.  A numeric value that is NaN or ±∞
  (the values flagged by `np.isfinite`) is modelled as `none : Option ℚ`.
* Calls into the external libraries (sympy, numpy, scipy) are oracles
  collected in the structure `Env`; a call that raises a Python exception
  returns `Except.error ()`.  The control flow of the repository's own
  code — every `try/except`, `if`, string-pattern test and ordering of
  stages — is translated literally from the source.
* `str(expr)` (sympy's printer) is the oracle `Env.strOf`; the substring
  tests `'sin(x**2)' in expr_str` of the source are `strContains`.
* The Streamlit UI calls (`st.error`, `st.warning`, `st.markdown`,
  `st.plotly_chart`) are modelled as an ordered list of `UIEvent`s
  returned by `main`; each error event corresponds to one distinct
  `st.error` message of the source.
-/

set_option maxRecDepth 100000

namespace IntegrationApp

/-- Model of a sympy expression tree (`sympy.Basic`), covering the
function vocabulary used by the app.  `unevalIntegral` models an
unevaluated `sympy.Integral` node left behind by `sp.integrate`. -/
inductive SymExpr where
  | sym (name : String)
  | num (q : ℚ)
  | piConst
  | add (a b : SymExpr)
  | sub (a b : SymExpr)
  | mul (a b : SymExpr)
  | div (a b : SymExpr)
  | pow (a b : SymExpr)
  | neg (a : SymExpr)
  | sin (a : SymExpr)
  | cos (a : SymExpr)
  | tan (a : SymExpr)
  | exp (a : SymExpr)
  | log (a : SymExpr)
  | sqrt (a : SymExpr)
  | erf (a : SymExpr)
  | fresnels (a : SymExpr)
  | fresnelc (a : SymExpr)
  | unevalIntegral (a : SymExpr)
deriving DecidableEq

/-- Models `expr.has(sp.Integral)`: does the tree contain an unevaluated
integral node anywhere? -/
def SymExpr.hasIntegralMarker : SymExpr → Bool
  | .sym _ => false
  | .num _ => false
  | .piConst => false
  | .add a b => a.hasIntegralMarker || b.hasIntegralMarker
  | .sub a b => a.hasIntegralMarker || b.hasIntegralMarker
  | .mul a b => a.hasIntegralMarker || b.hasIntegralMarker
  | .div a b => a.hasIntegralMarker || b.hasIntegralMarker
  | .pow a b => a.hasIntegralMarker || b.hasIntegralMarker
  | .neg a => a.hasIntegralMarker
  | .sin a => a.hasIntegralMarker
  | .cos a => a.hasIntegralMarker
  | .tan a => a.hasIntegralMarker
  | .exp a => a.hasIntegralMarker
  | .log a => a.hasIntegralMarker
  | .sqrt a => a.hasIntegralMarker
  | .erf a => a.hasIntegralMarker
  | .fresnels a => a.hasIntegralMarker
  | .fresnelc a => a.hasIntegralMarker
  | .unevalIntegral _ => true

/-- A numeric sample value as classified by `np.isfinite`: `some q` is a
finite float (modelled as a rational), `none` is NaN or ±∞. -/
abbrev YVal := Option ℚ

/-- Oracles for the external libraries consumed by the app.  Each field
models one library call site; `Except.error ()` models a raised Python
exception at that call. -/
structure Env where
  /-- `sp.sympify(expr_str)` (line 248). -/
  sympify : String → Except Unit SymExpr
  /-- `sp.lambdify(x, expr, modules=...)` (line 250): building the
  numeric function, which may itself raise (inside the outer `try`). -/
  lambdifyOk : SymExpr → Except Unit Unit
  /-- `f(x_vals)` (line 267) together with the tuple unwrap and
  `np.asarray(..., dtype=np.float64)` of lines 268–271: vectorised
  evaluation of the compiled function over the sample array, classified
  per element by finiteness. -/
  evalArr : SymExpr → List ℚ → Except Unit (List YVal)
  /-- `scipy.integrate.quad(f, lower_limit, upper_limit)` (line 294):
  returns (integral value, error estimate) or raises. -/
  quad : SymExpr → ℚ → ℚ → Except Unit (ℚ × ℚ)
  /-- `sp.integrate(expr, x, meijerg=True, risch=True)` (line 104). -/
  integrateGR : SymExpr → Except Unit SymExpr
  /-- `sp.integrate(simplified, x)` (line 114). -/
  integratePlain : SymExpr → Except Unit SymExpr
  /-- `sp.integrate(expr, x, manual=True)` (line 126). -/
  integrateManual : SymExpr → Except Unit SymExpr
  /-- `sp.trigsimp(sp.apart(expr))` (line 113); `sp.apart` raises e.g.
  `PolynomialError` on non-rational integrands. -/
  apartTrigsimp : SymExpr → Except Unit SymExpr
  /-- `str(expr)` (lines 106, 121): sympy's string printer. -/
  strOf : SymExpr → String
  /-- `isinstance(expr, sp.Basic)` (line 120). -/
  isBasic : SymExpr → Bool
  /-- `scipy.special.fresnel(x)[0]` — the numeric Fresnel S values used
  by `create_plot` (line 148); finite for finite input. -/
  fresnelS : ℚ → ℚ
  /-- The float `np.sqrt(np.pi/2)` (line 149), as a rational. -/
  sqrtPiOver2 : ℚ

/-- Substring containment, modelling Python's `pat in s`. -/
def strContains (s pat : String) : Bool :=
  (List.range (s.data.length + 1)).any (fun i => pat.data.isPrefixOf (s.data.drop i))

/-- The literal string pattern `'sin(x**2)'` of lines 107, 122, 135, 147. -/
def sinPat : String := "sin(x**2)"

/-- The literal string pattern `'exp(-x**2)'` of lines 110, 124, 138. -/
def expPat : String := "exp(-x**2)"

/-- `sp.sqrt(sp.pi/2) * (sp.fresnels(x) + sp.fresnelc(x))` (lines 108–109,
123). -/
def fresnelAntideriv : SymExpr :=
  .mul (.sqrt (.div .piConst (.num 2)))
    (.add (.fresnels (.sym "x")) (.fresnelc (.sym "x")))

/-- `sp.sqrt(sp.pi) * sp.erf(x) / 2` (lines 111, 125). -/
def erfAntideriv : SymExpr :=
  .div (.mul (.sqrt .piConst) (.erf (.sym "x"))) (.num 2)

/-- The body of the first `try` block of `try_integration`
(lines 103–117), with exception propagation made explicit:
strategy 1 (`meijerg=True, risch=True`), then — when an `Integral`
marker remains — the string-pattern table, and only when neither
pattern matches the `apart`/`trigsimp` simplification retry. -/
def tryBlock1 (env : Env) (e : SymExpr) : Except Unit SymExpr :=
  match env.integrateGR e with
  | .error u => .error u
  | .ok result =>
    if result.hasIntegralMarker then
      if strContains (env.strOf e) sinPat then
        .ok fresnelAntideriv
      else if strContains (env.strOf e) expPat then
        .ok erfAntideriv
      else
        match env.apartTrigsimp e with
        | .error u => .error u
        | .ok simplified =>
          match env.integratePlain simplified with
          | .error u => .error u
          | .ok r2 =>
            if r2.hasIntegralMarker then .error () else .ok r2
    else .ok result

/-- The body of the second `try` block of `try_integration`
(lines 119–129): the pattern table again (guarded by
`isinstance(expr, sp.Basic)`), then `manual=True` integration. -/
def tryBlock2 (env : Env) (e : SymExpr) : Except Unit SymExpr :=
  if env.isBasic e && strContains (env.strOf e) sinPat then
    .ok fresnelAntideriv
  else if env.isBasic e && strContains (env.strOf e) expPat then
    .ok erfAntideriv
  else
    match env.integrateManual e with
    | .error u => .error u
    | .ok result =>
      if result.hasIntegralMarker then .error () else .ok result

/-- `try_integration(expr, x)` (lines 102–131): the first `try` block,
its bare `except:` falling to the second block, whose bare `except:`
returns `None`. -/
def try_integration (env : Env) (e : SymExpr) : Option SymExpr :=
  match tryBlock1 env e with
  | .ok r => some r
  | .error _ =>
    match tryBlock2 env e with
    | .ok r => some r
    | .error _ => none

/-- `np.linspace(a, b, n)`: `n` points `a + i*(b-a)/(n-1)`. -/
def linspace (a b : ℚ) (n : ℕ) : List ℚ :=
  (List.range n).map fun (i : ℕ) => a + (i : ℚ) * ((b - a) / ((n : ℚ) - 1))

/-- Lines 263–264: `plot_margin = (upper_limit - lower_limit) * 0.2;
x_vals = np.linspace(lower_limit - plot_margin, upper_limit + plot_margin, 1000)`. -/
def sampleDomain (lower_limit upper_limit : ℚ) : List ℚ :=
  let plot_margin := (upper_limit - lower_limit) * (1/5)
  linspace (lower_limit - plot_margin) (upper_limit + plot_margin) 1000

/-- The point data of the plotly figure built by `create_plot`: the
curve trace (line 154) and the integration-area fill trace (line 169). -/
structure PlotData where
  curve : List (ℚ × ℚ)
  fill : List (ℚ × ℚ)
deriving DecidableEq

/-- `create_plot(x_vals, y_vals, expr_str, lower_limit, upper_limit)`
(lines 143–177), reduced to the point data handed to the renderer:
when `'sin(x**2)' in expr_str` the y-values are replaced by
`np.sqrt(np.pi/2) * special.fresnel(x_vals)[0]` (lines 147–149); the
curve keeps the pairs with finite y (`mask = np.isfinite(y_vals)`,
line 153); the fill keeps those with `lower_limit <= x <= upper_limit`
and finite y (line 167). -/
def create_plot (env : Env) (x_vals : List ℚ) (y_vals : List YVal)
    (expr_str : String) (lower_limit upper_limit : ℚ) : PlotData :=
  let y_vals : List YVal :=
    if strContains expr_str sinPat then
      x_vals.map (fun xv => some (env.sqrtPiOver2 * env.fresnelS xv))
    else y_vals
  let pts := x_vals.zip y_vals
  { curve := pts.filterMap (fun p => p.2.map (fun yv => (p.1, yv)))
    fill := pts.filterMap (fun p =>
      if lower_limit ≤ p.1 ∧ p.1 ≤ upper_limit then
        p.2.map (fun yv => (p.1, yv))
      else none) }

/-- The user-visible events emitted by the calculation branch of `main`
(lines 241–319), in order.  Each `error…` constructor is one distinct
`st.error` message of the source. -/
inductive UIEvent where
  /-- "Upper limit must be greater than lower limit" (line 244). -/
  | errorBoundsOrder
  /-- "Function produces infinite or undefined values" (line 274). -/
  | errorNonFinite
  /-- "Error calculating function values…" (line 278). -/
  | errorCalcValues
  /-- "Error computing the definite integral…" (line 315). -/
  | errorQuad
  /-- "Invalid function syntax…" (line 318, the outer `except`). -/
  | errorSyntax
  /-- The indefinite-integral markdown (lines 284–288). -/
  | showIndefinite (e : SymExpr)
  /-- "Couldn't find a symbolic indefinite integral…" (lines 290–291). -/
  | warnNoClosedForm
  /-- `st.plotly_chart(fig)` (lines 296–298). -/
  | showPlot (pd : PlotData)
  /-- The results box with the definite integral and the error estimate
  (lines 300–309). -/
  | showResults (value errEst : ℚ)
  /-- "Note: The error estimate is relatively large." (lines 311–312). -/
  | warnLargeError
deriving DecidableEq

/-- Is the event one of the `st.error` failure messages? -/
def isErrorEvent : UIEvent → Bool
  | .errorBoundsOrder => true
  | .errorNonFinite => true
  | .errorCalcValues => true
  | .errorQuad => true
  | .errorSyntax => true
  | _ => false

/-- The calculation triggered by the Calculate button in `main`
(lines 242–319), as the ordered list of UI events it emits:
bounds check; `sympify` and `lambdify` (raises caught by the outer
`except` of line 317); sample domain; vectorised evaluation with its
local `except` (line 277); the `np.any(~np.isfinite(y_vals))` rejection
(line 273); `try_integration` with the no-closed-form warning
(lines 281–291); `quad` with its local `except` (line 314), the plot,
the results box and the large-error-estimate warning (lines 294–312). -/
def main (env : Env) (expr_str : String) (lower_limit upper_limit : ℚ) :
    List UIEvent :=
  if lower_limit ≥ upper_limit then [.errorBoundsOrder]
  else
    match env.sympify expr_str with
    | .error _ => [.errorSyntax]
    | .ok expr =>
      match env.lambdifyOk expr with
      | .error _ => [.errorSyntax]
      | .ok _ =>
        let x_vals := sampleDomain lower_limit upper_limit
        match env.evalArr expr x_vals with
        | .error _ => [.errorCalcValues]
        | .ok y_vals =>
          if y_vals.any (fun yv => yv.isNone) then [.errorNonFinite]
          else
            let symEvents : List UIEvent :=
              match try_integration env expr with
              | some r => [.showIndefinite r]
              | none => [.warnNoClosedForm]
            match env.quad expr lower_limit upper_limit with
            | .error _ => symEvents ++ [.errorQuad]
            | .ok (integral_result, error_estimate) =>
              symEvents ++
                [.showPlot (create_plot env x_vals y_vals expr_str
                    lower_limit upper_limit),
                 .showResults integral_result error_estimate] ++
                (if 1/1000000 < |error_estimate| then [.warnLargeError]
                 else [])

/-- Are the successive differences of the list all equal to `d`? -/
def evenlySpaced : List ℚ → ℚ → Bool
  | [], _ => true
  | [_], _ => true
  | a :: b :: rest, d => decide (b - a = d) && evenlySpaced (b :: rest) d

/-! ## Concrete oracle environments

Each environment below instantiates the library oracles for one
concrete request, following the documented behaviour of sympy, numpy
and scipy on that input. -/

/-- A neutral environment: parsing fails, evaluation yields finite
zeros, every integration call raises.  Used as the base for the
request-specific environments below. -/
def baseEnv : Env where
  sympify := fun _ => .error ()
  lambdifyOk := fun _ => .ok ()
  evalArr := fun _ xs => .ok (xs.map fun _ => some 0)
  quad := fun _ _ _ => .error ()
  integrateGR := fun _ => .error ()
  integratePlain := fun _ => .error ()
  integrateManual := fun _ => .error ()
  apartTrigsimp := fun _ => .error ()
  strOf := fun _ => ""
  isBasic := fun _ => true
  fresnelS := fun _ => 0
  sqrtPiOver2 := 12533/10000

/-- Finiteness profile of `np.log` at a sample point: `np.log` returns a
finite float exactly for positive arguments (`-inf` at `0`, `nan` below);
only finiteness matters to the handler's check, so the finite values are
abstracted as `0`. -/
def logYVal (xv : ℚ) : YVal := if 0 < xv then some 0 else none

/-- Environment for the request `log(x)` on bounds `[1, 10]`:
`sympify` succeeds, the vectorised evaluation classifies each sample
point by the finiteness profile of `np.log`, and
`sp.integrate(log(x), x) = x*log(x) - x` (no `Integral` marker). -/
def envLog : Env := { baseEnv with
  sympify := fun _ => .ok (.log (.sym "x"))
  evalArr := fun _ xs => .ok (xs.map logYVal)
  strOf := fun _ => "log(x)"
  integrateGR := fun _ =>
    .ok (.sub (.mul (.sym "x") (.log (.sym "x"))) (.sym "x")) }

/-- Finiteness profile of numpy's `1/x` at a sample point: division of
float64 arrays yields `inf` at `0` (non-finite) and a finite value
elsewhere. -/
def recipYVal (xv : ℚ) : YVal := if xv = 0 then none else some (1/xv)

/-- Environment for the request `1/x` on bounds `[-1, 1]`: `sympify`
succeeds, evaluation follows `recipYVal`,
`sp.integrate(1/x, x) = log(x)` (no marker), and `quad` raises —
QUADPACK evaluates the integrand at the midpoint of `[-1, 1]`, where
the lambdified `1/x` raises `ZeroDivisionError` on the float `0.0`. -/
def env6 : Env := { baseEnv with
  sympify := fun _ => .ok (.div (.num 1) (.sym "x"))
  evalArr := fun _ xs => .ok (xs.map recipYVal)
  strOf := fun _ => "1/x"
  integrateGR := fun _ => .ok (.log (.sym "x"))
  quad := fun _ _ _ => .error () }

/-- Environment for the request `y+1` on bounds `[0, 1]`:
`sp.sympify("y+1")` succeeds (sympy freely creates the symbol `y`;
the app performs no free-variable validation), `sp.lambdify(x, y+1)`
also succeeds, but calling the compiled function raises `NameError`
because `y` is unbound — the vectorised evaluation raises. -/
def envY : Env := { baseEnv with
  sympify := fun _ => .ok (.add (.sym "y") (.num 1))
  evalArr := fun _ _ => .error ()
  strOf := fun _ => "y + 1" }

/-- Environment exhibiting the fallback order on an expression printing
as `sin(x**2)`: strategy 1 leaves an `Integral` marker, `apart`/
`trigsimp` leave the expression unchanged, and the plain re-integration
(strategy 2 of the spec) would succeed with a marker-free result
different from the pattern-table result. -/
def envC2 : Env := { baseEnv with
  integrateGR := fun e => .ok (.unevalIntegral e)
  apartTrigsimp := fun e => .ok e
  integratePlain := fun _ => .ok (.fresnels (.sym "x"))
  strOf := fun _ => "sin(x**2)" }

/-- The sympy tree of `sin(x**2)`. -/
def sinX2 : SymExpr := .sin (.pow (.sym "x") (.num 2))

/-- Environment for the `create_plot` counterexample: the numeric
Fresnel S value at `x = 1` is `special.fresnel(1)[0] ≈ 0.4383`
(modelled as the rational `4383/10000`). -/
def env5 : Env := { baseEnv with fresnelS := fun _ => 4383/10000 }

/-- Environment in which every symbolic strategy fails on the parsed
expression (`meijerg/risch` and `manual` integration both leave a marker,
`sp.apart` raises on the non-rational integrand, no string pattern
matches) while quadrature succeeds with value `5/2` and error estimate
`1/10^10`. -/
def env4 : Env := { baseEnv with
  sympify := fun _ => .ok (.exp (.pow (.sym "x") (.sym "x")))
  strOf := fun _ => "exp(x**x)"
  integrateGR := fun e => .ok (.unevalIntegral e)
  integrateManual := fun e => .ok (.unevalIntegral e)
  quad := fun _ _ _ => .ok (5/2, 1/10000000000) }

/-- Environment for a fully successful request on `x**2`: parsing,
evaluation (all finite), symbolic integration (`x**3/3`, no marker) and
quadrature (`1/3` with a large error estimate `1/10`) all succeed. -/
def env7 : Env := { baseEnv with
  sympify := fun _ => .ok (.pow (.sym "x") (.num 2))
  strOf := fun _ => "x**2"
  integrateGR := fun _ => .ok (.div (.pow (.sym "x") (.num 3)) (.num 3))
  quad := fun _ _ _ => .ok (1/3, 1/10) }

/-! ## Helper lemmas -/

theorem length_linspace (a b : ℚ) (n : ℕ) : (linspace a b n).length = n := by
  simp [linspace]

theorem mem_linspace {a b x : ℚ} {n : ℕ} :
    x ∈ linspace a b n ↔
      ∃ i, i < n ∧ x = a + (i : ℚ) * ((b - a) / ((n : ℚ) - 1)) := by
  simp only [linspace, List.mem_map, List.mem_range]
  constructor
  · rintro ⟨i, hi, rfl⟩; exact ⟨i, hi, rfl⟩
  · rintro ⟨i, hi, rfl⟩; exact ⟨i, hi, rfl⟩

theorem evenlySpaced_map_range' (f : ℕ → ℚ) (d : ℚ)
    (hf : ∀ i, f (i + 1) - f i = d) :
    ∀ n i, evenlySpaced ((List.range' i n).map f) d = true := by
  intro n
  induction n with
  | zero => intro i; rfl
  | succ m ih =>
    intro i
    cases m with
    | zero => rfl
    | succ k =>
      have h2 := ih (i + 1)
      rw [List.range'_succ, List.map_cons] at h2
      rw [List.range'_succ, List.map_cons, List.range'_succ, List.map_cons]
      show (decide (f (i + 1) - f i = d) &&
        evenlySpaced (f (i + 1) :: (List.range' (i + 1 + 1) k).map f) d) = true
      rw [hf i]
      simpa using h2

theorem mem_zip_map {α β : Type} (f : α → β) (xs : List α) (p : α × β)
    (hp : p ∈ xs.zip (xs.map f)) : p.2 = f p.1 ∧ p.1 ∈ xs := by
  induction xs with
  | nil => cases hp
  | cons x xs ih =>
    rw [List.map_cons, List.zip_cons_cons] at hp
    rcases List.mem_cons.mp hp with h | h
    · subst h
      exact ⟨rfl, List.mem_cons_self x xs⟩
    · rcases ih h with ⟨h1, h2⟩
      exact ⟨h1, List.mem_cons_of_mem x h2⟩

/-! ## Claim C8 -/

/-- C8: for every pair of bounds with `lower_limit = upper_limit` or
`lower_limit > upper_limit` (together: `upper ≤ lower`), the handler
emits exactly the bounds-ordering validation error and nothing else —
no parse, evaluation, integration or plot event is produced, and the
bounds are not swapped. -/
theorem c8_bounds_validation (env : Env) (s : String) (l u : ℚ)
    (h : u ≤ l) : main env s l u = [UIEvent.errorBoundsOrder] := by
  unfold main
  rw [if_pos h]

/-- Witness for C8 at the concrete boundary request `lower = upper = 1`. -/
theorem c8_bounds_validation_witness :
    (1 : ℚ) ≤ 1 ∧ main baseEnv "x**2" 1 1 = [UIEvent.errorBoundsOrder] :=
  ⟨le_refl 1, c8_bounds_validation baseEnv "x**2" 1 1 (le_refl 1)⟩

/-! ## Claim C9 -/

/-- C9: for every request with valid bounds `l < u`, the sample domain
is exactly 1000 evenly spaced coordinates running from
`l - 0.2*(u - l)` to `u + 0.2*(u - l)`. -/
theorem c9_sample_domain_shape (l u : ℚ) (_h : l < u) :
    (sampleDomain l u).length = 1000 ∧
    (sampleDomain l u).head? = some (l - (u - l) * (1/5)) ∧
    (sampleDomain l u).getLast? = some (u + (u - l) * (1/5)) ∧
    evenlySpaced (sampleDomain l u)
      (((u + (u - l) * (1/5)) - (l - (u - l) * (1/5))) / 999) = true := by
  refine ⟨by simp [sampleDomain, length_linspace], ?_, ?_, ?_⟩
  · rw [List.head?_eq_getElem?]
    simp [sampleDomain, linspace]
  · rw [List.getLast?_eq_getElem?]
    simp only [sampleDomain, linspace, List.length_map, List.length_range]
    rw [List.getElem?_map]
    simp only [List.getElem?_range (by norm_num : (999:ℕ) < 1000)]
    norm_num
    ring_nf
  · have hcast : ((1000 : ℕ) : ℚ) - 1 = 999 := by norm_num
    simp only [sampleDomain, linspace, List.range_eq_range', hcast]
    exact evenlySpaced_map_range' _ _ (fun i => by push_cast; ring) 1000 0

/-- Witness for C9 at the concrete bounds `lower = 0`, `upper = 1`. -/
theorem c9_sample_domain_shape_witness :
    (0 : ℚ) < 1 ∧ (sampleDomain 0 1).length = 1000 ∧
      evenlySpaced (sampleDomain 0 1)
        (((1 + (1 - 0) * (1/5)) - (0 - (1 - 0) * (1/5))) / 999) = true :=
  ⟨by norm_num, (c9_sample_domain_shape 0 1 (by norm_num)).1,
    (c9_sample_domain_shape 0 1 (by norm_num)).2.2.2⟩

/-! ## Claim C10 -/

/-- C10: `try_integration` never lets an exception escape — an exception
in the first `try` block falls to the second block, an exception there
yields `None`, and a normal result of either block is returned as-is.
Together with the exhaustiveness of `Except`, every input therefore
produces either a symbolic expression or `None`. -/
theorem c10_try_integration_total (env : Env) (e : SymExpr) :
    (tryBlock1 env e = .error () → tryBlock2 env e = .error () →
      try_integration env e = none) ∧
    (∀ r, tryBlock1 env e = .error () → tryBlock2 env e = .ok r →
      try_integration env e = some r) ∧
    (∀ r, tryBlock1 env e = .ok r → try_integration env e = some r) := by
  unfold try_integration
  refine ⟨fun h1 h2 => ?_, fun r h1 h2 => ?_, fun r h1 => ?_⟩
  · rw [h1, h2]
  · rw [h1, h2]
  · rw [h1]

/-- Witness for C10: in `baseEnv` both integration calls raise, both
blocks fail, and the result is `None`. -/
theorem c10_try_integration_total_witness :
    tryBlock1 baseEnv (.sym "x") = .error () ∧
    tryBlock2 baseEnv (.sym "x") = .error () ∧
    try_integration baseEnv (.sym "x") = none :=
  ⟨rfl, rfl, (c10_try_integration_total baseEnv (.sym "x")).1 rfl rfl⟩

/-! ## Claim C2 -/

/-- C2 counterexample: an expression printing as `sin(x**2)` on which
strategy 1 leaves an `Integral` marker while the simplification retry
(`apart`/`trigsimp` + plain `sp.integrate`) would succeed with a
marker-free result.  The claim says the simplified re-integration runs
before the lookup table and that the table is consulted only when the
general methods fail, so the result should be the retry's result; the
code instead returns the table's Fresnel expression, never attempting
the retry. -/
theorem c2_table_before_simplify_counterexample :
    envC2.integrateGR sinX2 = .ok (.unevalIntegral sinX2) ∧
    (SymExpr.unevalIntegral sinX2).hasIntegralMarker = true ∧
    envC2.apartTrigsimp sinX2 = .ok sinX2 ∧
    envC2.integratePlain sinX2 = .ok (.fresnels (.sym "x")) ∧
    (SymExpr.fresnels (.sym "x")).hasIntegralMarker = false ∧
    try_integration envC2 sinX2 = some fresnelAntideriv ∧
    fresnelAntideriv ≠ SymExpr.fresnels (.sym "x") := by
  refine ⟨rfl, rfl, rfl, rfl, rfl, rfl, ?_⟩
  decide

/-- C2 (amended): when strategy 1 leaves an `Integral` marker, the
string-pattern lookup table is consulted FIRST: a matching `sin(x**2)`
or `exp(-x**2)` pattern immediately yields the table's closed form
(overriding any would-be general-method result), and the
partial-fraction/trig simplification retry runs only when neither
pattern matches, its marker-free result being returned in that case. -/
theorem c2_fallback_order_amended (env : Env) (e r : SymExpr)
    (h1 : env.integrateGR e = .ok r) (h2 : r.hasIntegralMarker = true) :
    (strContains (env.strOf e) sinPat = true →
      try_integration env e = some fresnelAntideriv) ∧
    (strContains (env.strOf e) sinPat = false →
      strContains (env.strOf e) expPat = true →
      try_integration env e = some erfAntideriv) ∧
    (∀ e2 r2, strContains (env.strOf e) sinPat = false →
      strContains (env.strOf e) expPat = false →
      env.apartTrigsimp e = .ok e2 → env.integratePlain e2 = .ok r2 →
      r2.hasIntegralMarker = false →
      try_integration env e = some r2) := by
  refine ⟨fun hsin => ?_, fun hsin hexp => ?_,
    fun e2 r2 hsin hexp ha hp hm => ?_⟩
  · unfold try_integration tryBlock1
    rw [h1]
    simp [h2, hsin]
  · unfold try_integration tryBlock1
    rw [h1]
    simp [h2, hsin, hexp]
  · unfold try_integration tryBlock1
    rw [h1]
    simp [h2, hsin, hexp, ha, hp, hm]

/-- Witness for the amended C2, taking the `sin(x**2)` branch in
`envC2`. -/
theorem c2_fallback_order_amended_witness :
    strContains (envC2.strOf sinX2) sinPat = true ∧
    try_integration envC2 sinX2 = some fresnelAntideriv :=
  ⟨rfl, (c2_fallback_order_amended envC2 sinX2
    (.unevalIntegral sinX2) rfl rfl).1 rfl⟩

/-! ## Claim C4 -/

/-- C4: when every symbolic strategy fails — strategy 1 raises or leaves
an `Integral` marker, no string pattern matches, the simplification
retry raises or leaves a marker, and manual integration raises or
leaves a marker — `try_integration` returns `None` rather than an
error, and the handler still proceeds: it emits the user-visible
no-closed-form notice and still computes and reports the definite
integral via quadrature. -/
theorem c4_no_closed_form_proceeds (env : Env) (s : String) (l u : ℚ)
    (e : SymExpr) (ys : List YVal) (v er : ℚ)
    (hlu : l < u)
    (hs : env.sympify s = .ok e)
    (hl : env.lambdifyOk e = .ok ())
    (he : env.evalArr e (sampleDomain l u) = .ok ys)
    (hfin : ys.any (fun yv => yv.isNone) = false)
    (hgr : ∀ r, env.integrateGR e = .ok r → r.hasIntegralMarker = true)
    (hsin : strContains (env.strOf e) sinPat = false)
    (hexp : strContains (env.strOf e) expPat = false)
    (hsimp : ∀ e2 r2, env.apartTrigsimp e = .ok e2 →
      env.integratePlain e2 = .ok r2 → r2.hasIntegralMarker = true)
    (hman : ∀ r, env.integrateManual e = .ok r → r.hasIntegralMarker = true)
    (hq : env.quad e l u = .ok (v, er)) :
    try_integration env e = none ∧
    main env s l u =
      [UIEvent.warnNoClosedForm] ++
      [UIEvent.showPlot (create_plot env (sampleDomain l u) ys s l u),
       UIEvent.showResults v er] ++
      (if 1/1000000 < |er| then [UIEvent.warnLargeError] else []) := by
  have hb1 : tryBlock1 env e = .error () := by
    unfold tryBlock1
    cases hgr1 : env.integrateGR e with
    | error u1 => rfl
    | ok r =>
      simp only [hgr r hgr1, hsin, hexp, Bool.false_eq_true, if_false,
        if_true]
      cases ha : env.apartTrigsimp e with
      | error u2 => rfl
      | ok e2 =>
        simp only []
        cases hp : env.integratePlain e2 with
        | error u3 => rfl
        | ok r2 =>
          simp only [hsimp e2 r2 ha hp, if_true]
  have hb2 : tryBlock2 env e = .error () := by
    unfold tryBlock2
    simp only [hsin, hexp, Bool.and_false, Bool.false_eq_true, if_false]
    cases hm : env.integrateManual e with
    | error u1 => rfl
    | ok r =>
      simp only [hman r hm, if_true]
  have hti : try_integration env e = none := by
    unfold try_integration
    rw [hb1, hb2]
  refine ⟨hti, ?_⟩
  unfold main
  rw [if_neg (not_le.mpr hlu)]
  simp only [hs, hl, he, hfin, Bool.false_eq_true, if_false, hti, hq]

/-- Witness for C4 in `env4`, where all strategies fail on
`exp(x**x)` and quadrature succeeds with a small error estimate. -/
theorem c4_no_closed_form_proceeds_witness :
    try_integration env4 (.exp (.pow (.sym "x") (.sym "x"))) = none ∧
    main env4 "exp(x**x)" 0 1 =
      [UIEvent.warnNoClosedForm] ++
      [UIEvent.showPlot (create_plot env4 (sampleDomain 0 1)
        ((sampleDomain 0 1).map (fun _ => some 0)) "exp(x**x)" 0 1),
       UIEvent.showResults (5/2) (1/10000000000)] ++
      (if 1/1000000 < |(1/10000000000 : ℚ)| then [UIEvent.warnLargeError]
       else []) := by
  refine c4_no_closed_form_proceeds env4 "exp(x**x)" 0 1
      (.exp (.pow (.sym "x") (.sym "x")))
      ((sampleDomain 0 1).map (fun _ => some 0)) (5/2) (1/10000000000)
      (by norm_num) rfl rfl rfl (by simp) ?_ (by decide) (by decide) ?_ ?_ rfl
  · intro r hr
    injection hr with h
    subst h
    rfl
  · intro e2 r2 ha
    exact Except.noConfusion ha
  · intro r hr
    injection hr with h
    subst h
    rfl

/-! ## Claim C3 -/

/-- C3 counterexample: the request `y+1` on bounds `[0, 1]`.  Sympy
parses `y+1` without complaint (the app performs no free-variable
validation), so the request fails only later, at the evaluation stage
with the calculation-error message — not with the syntax/parse error
the claim requires. -/
theorem c3_free_variable_eval_stage_counterexample :
    main envY "y+1" 0 1 = [UIEvent.errorCalcValues] ∧
    main envY "y+1" 0 1 ≠ [UIEvent.errorSyntax] := by
  have hmain : main envY "y+1" 0 1 = [UIEvent.errorCalcValues] := by
    unfold main
    rw [if_neg (by norm_num : ¬ (0 : ℚ) ≥ 1)]
    rfl
  refine ⟨hmain, ?_⟩
  rw [hmain]
  simp

/-- C3 (amended): an input text with a free variable other than `x`
passes `sympify` unchecked; the failure surfaces when the compiled
function is evaluated (the lambdified code references the unbound name
and raises `NameError`), so the handler reports the evaluation-stage
calculation error, never the ParseError classification. -/
theorem c3_eval_failure_amended (env : Env) (s : String) (l u : ℚ)
    (e : SymExpr)
    (hlu : l < u) (hs : env.sympify s = .ok e)
    (hl : env.lambdifyOk e = .ok ())
    (he : env.evalArr e (sampleDomain l u) = .error ()) :
    main env s l u = [UIEvent.errorCalcValues] ∧
    main env s l u ≠ [UIEvent.errorSyntax] := by
  have hmain : main env s l u = [UIEvent.errorCalcValues] := by
    unfold main
    rw [if_neg (not_le.mpr hlu)]
    simp only [hs, hl, he]
  refine ⟨hmain, ?_⟩
  rw [hmain]
  simp

/-- Witness for the amended C3 at the concrete request `y+1` on
`[0, 1]`. -/
theorem c3_eval_failure_amended_witness :
    main envY "y+1" 0 1 = [UIEvent.errorCalcValues] ∧
    main envY "y+1" 0 1 ≠ [UIEvent.errorSyntax] :=
  c3_eval_failure_amended envY "y+1" 0 1 (.add (.sym "y") (.num 1))
    (by norm_num) rfl rfl rfl

/-! ## Claim C7 -/

/-- C7: for every request in which quadrature returns successfully, the
handler surfaces both the integral value and the error estimate in the
results box, attaches the large-estimate warning exactly when
`|error_estimate| > 1e-6`, and the response remains successful — no
error event is emitted. -/
theorem c7_quadrature_success_reporting (env : Env) (s : String)
    (l u : ℚ) (e : SymExpr) (ys : List YVal) (v er : ℚ)
    (hlu : l < u)
    (hs : env.sympify s = .ok e)
    (hl : env.lambdifyOk e = .ok ())
    (he : env.evalArr e (sampleDomain l u) = .ok ys)
    (hfin : ys.any (fun yv => yv.isNone) = false)
    (hq : env.quad e l u = .ok (v, er)) :
    main env s l u =
      (match try_integration env e with
        | some r => [UIEvent.showIndefinite r]
        | none => [UIEvent.warnNoClosedForm]) ++
      [UIEvent.showPlot (create_plot env (sampleDomain l u) ys s l u),
       UIEvent.showResults v er] ++
      (if 1/1000000 < |er| then [UIEvent.warnLargeError] else []) ∧
    (UIEvent.warnLargeError ∈ main env s l u ↔ 1/1000000 < |er|) ∧
    (main env s l u).all (fun ev => !(isErrorEvent ev)) = true := by
  have hmain : main env s l u =
      (match try_integration env e with
        | some r => [UIEvent.showIndefinite r]
        | none => [UIEvent.warnNoClosedForm]) ++
      [UIEvent.showPlot (create_plot env (sampleDomain l u) ys s l u),
       UIEvent.showResults v er] ++
      (if 1/1000000 < |er| then [UIEvent.warnLargeError] else []) := by
    unfold main
    rw [if_neg (not_le.mpr hlu)]
    simp only [hs, hl, he, hfin, Bool.false_eq_true, if_false, hq]
  refine ⟨hmain, ?_, ?_⟩
  · rw [hmain]
    cases hti : try_integration env e <;>
      by_cases hbig : 1/1000000 < |er| <;>
      simp [hbig]
  · rw [hmain]
    cases hti : try_integration env e <;>
      by_cases hbig : 1/1000000 < |er| <;>
      simp [hbig, isErrorEvent]

/-- Witness for C7 in `env7`: quadrature returns `(1/3, 1/10)` and the
error estimate `1/10` exceeds the `1e-6` threshold. -/
theorem c7_quadrature_success_reporting_witness :
    main env7 "x**2" 0 1 =
      (match try_integration env7 (.pow (.sym "x") (.num 2)) with
        | some r => [UIEvent.showIndefinite r]
        | none => [UIEvent.warnNoClosedForm]) ++
      [UIEvent.showPlot (create_plot env7 (sampleDomain 0 1)
        ((sampleDomain 0 1).map (fun _ => some 0)) "x**2" 0 1),
       UIEvent.showResults (1/3) (1/10)] ++
      (if 1/1000000 < |(1/10 : ℚ)| then [UIEvent.warnLargeError]
       else []) ∧
    (UIEvent.warnLargeError ∈ main env7 "x**2" 0 1 ↔
      1/1000000 < |(1/10 : ℚ)|) ∧
    (main env7 "x**2" 0 1).all (fun ev => !(isErrorEvent ev)) = true :=
  c7_quadrature_success_reporting env7 "x**2" 0 1
    (.pow (.sym "x") (.num 2))
    ((sampleDomain 0 1).map (fun _ => some 0)) (1/3) (1/10)
    (by norm_num) rfl rfl rfl (by simp) rfl

/-! ## Claim C1 -/

/-- C1 counterexample: the request `log(x)` on bounds `[1, 10]`.  Every
sample point inside the requested bounds is at least `1`, hence
positive, so all y-values within the bounds are finite (third
conjunct); yet the padded sample domain starts at `1 - 0.2*9 = -4/5`,
where `np.log` is non-finite (second conjunct), and the handler rejects
the request (first conjunct) although the claim requires it to proceed
and mask. -/
theorem c1_reject_outside_bounds_counterexample :
    main envLog "log(x)" 1 10 = [UIEvent.errorNonFinite] ∧
    ((sampleDomain 1 10).map logYVal).any (fun yv => yv.isNone) = true ∧
    ((sampleDomain 1 10).zip ((sampleDomain 1 10).map logYVal)).all
      (fun p => if 1 ≤ p.1 ∧ p.1 ≤ 10 then p.2.isSome else true)
      = true := by
  have hsd : sampleDomain 1 10 =
      linspace (1 - (10 - 1) * (1/5)) (10 + (10 - 1) * (1/5)) 1000 := rfl
  have hany : ((sampleDomain 1 10).map logYVal).any
      (fun yv => yv.isNone) = true := by
    refine List.any_eq_true.mpr
      ⟨logYVal (-4/5), List.mem_map_of_mem logYVal ?_, ?_⟩
    · rw [hsd]
      refine mem_linspace.mpr ⟨0, by norm_num, ?_⟩
      push_cast
      norm_num
    · show (logYVal (-4/5)).isNone = true
      rw [logYVal, if_neg (by norm_num : ¬ (0 : ℚ) < -4/5)]
      rfl
  refine ⟨?_, hany, ?_⟩
  · unfold main
    rw [if_neg (by norm_num : ¬ (1 : ℚ) ≥ 10)]
    simp only [envLog, baseEnv]
    rw [hany]
    simp
  · refine List.all_eq_true.mpr ?_
    intro p hp
    obtain ⟨hpf, hpmem⟩ := mem_zip_map logYVal (sampleDomain 1 10) p hp
    by_cases hb : 1 ≤ p.1 ∧ p.1 ≤ 10
    · rw [if_pos hb, hpf, logYVal,
        if_pos (lt_of_lt_of_le one_pos hb.1 : (0:ℚ) < p.1)]
      rfl
    · rw [if_neg hb]

/-- C1 (amended): the handler rejects exactly when the evaluated
y-values contain a non-finite value anywhere in the padded sample
domain — also at sample points outside the requested bounds; only
requests whose samples are all finite proceed to masking and
rendering. -/
theorem c1_nonfinite_reject_iff (env : Env) (s : String) (l u : ℚ)
    (e : SymExpr) (ys : List YVal)
    (hlu : l < u) (hs : env.sympify s = .ok e)
    (hl : env.lambdifyOk e = .ok ())
    (he : env.evalArr e (sampleDomain l u) = .ok ys) :
    UIEvent.errorNonFinite ∈ main env s l u ↔
      ys.any (fun yv => yv.isNone) = true := by
  unfold main
  rw [if_neg (not_le.mpr hlu)]
  simp only [hs, hl, he]
  cases hA : ys.any (fun yv => yv.isNone) with
  | true => simp
  | false =>
    simp only [Bool.false_eq_true, if_false]
    cases hti : try_integration env e with
    | none =>
      cases hq : env.quad e l u with
      | error u1 => simp
      | ok p =>
        obtain ⟨v, er⟩ := p
        by_cases hbig : 1/1000000 < |er| <;> simp [hbig]
    | some r =>
      cases hq : env.quad e l u with
      | error u1 => simp
      | ok p =>
        obtain ⟨v, er⟩ := p
        by_cases hbig : 1/1000000 < |er| <;> simp [hbig]

/-- Witness for the amended C1 at the `log(x)` request on `[1, 10]`. -/
theorem c1_nonfinite_reject_iff_witness :
    UIEvent.errorNonFinite ∈ main envLog "log(x)" 1 10 ↔
      ((sampleDomain 1 10).map logYVal).any (fun yv => yv.isNone)
        = true :=
  c1_nonfinite_reject_iff envLog "log(x)" 1 10 (.log (.sym "x"))
    ((sampleDomain 1 10).map logYVal) (by norm_num) rfl rfl rfl

/-! ## Claim C5 -/

theorem filterMap_zip_map_some {α β : Type} (xs : List α) (g : α → β) :
    ((xs.zip (xs.map fun x => some (g x))).filterMap
      (fun p => p.2.map (fun yv => (p.1, yv)))) =
      xs.map (fun x => (x, g x)) := by
  induction xs with
  | nil => rfl
  | cons x xs ih =>
    rw [List.map_cons, List.zip_cons_cons, List.filterMap_cons]
    simp only [Option.map_some']
    rw [ih, List.map_cons]

/-- C5 counterexample: `create_plot` for the expression text
`sin(x**2)` at the single sample `x = 1`, whose evaluated value
`sin(1) ≈ 0.8415` is finite.  The claim requires the curve to be
exactly the finite evaluated pair `(1, 0.8415)`; the code instead
replaces the y-values with `sqrt(pi/2) * FresnelS(x)` (here
`≈ 1.2533 * 0.4383`), a different function's values. -/
theorem c5_fresnel_replacement_counterexample :
    (create_plot env5 [1] [some (8415/10000)] "sin(x**2)" 0 1).curve =
      [((1 : ℚ), env5.sqrtPiOver2 * env5.fresnelS 1)] ∧
    (create_plot env5 [1] [some (8415/10000)] "sin(x**2)" 0 1).curve ≠
      [((1 : ℚ), (8415/10000 : ℚ))] := by
  constructor
  · rfl
  · have h : (create_plot env5 [1] [some (8415/10000)]
        "sin(x**2)" 0 1).curve =
        [((1 : ℚ), (12533/10000 : ℚ) * (4383/10000 : ℚ))] := rfl
    rw [h]
    simp only [ne_eq, List.cons.injEq, Prod.mk.injEq, and_true,
      true_and]
    norm_num

/-- C5 (amended): when the expression string does not contain
`sin(x**2)`, the curve points are exactly the masked finite evaluated
(x, y) pairs as the claim states; but when the string does contain
`sin(x**2)`, the y-values are first replaced by
`sqrt(pi/2) * FresnelS(x)` and every curve point carries that
replacement value — the curve then plots a different function than the
user's `f`. -/
theorem c5_curve_points_amended (env : Env) (x_vals : List ℚ)
    (y_vals : List YVal) (expr_str : String) (l u : ℚ) :
    (strContains expr_str sinPat = false →
      (create_plot env x_vals y_vals expr_str l u).curve =
        (x_vals.zip y_vals).filterMap
          (fun p => p.2.map (fun yv => (p.1, yv)))) ∧
    (strContains expr_str sinPat = true →
      (create_plot env x_vals y_vals expr_str l u).curve =
        x_vals.map (fun xv => (xv, env.sqrtPiOver2 * env.fresnelS xv)))
    := by
  constructor
  · intro hpat
    unfold create_plot
    rw [hpat]
    simp
  · intro hpat
    unfold create_plot
    rw [hpat]
    simp only [if_true]
    exact filterMap_zip_map_some x_vals
      (fun xv => env.sqrtPiOver2 * env.fresnelS xv)

/-- Witness for the amended C5: the no-pattern branch on the text
`x**2` and the pattern branch on the text `sin(x**2)`, both at the
single sample `x = 1` with evaluated value `2`. -/
theorem c5_curve_points_amended_witness :
    (create_plot env5 [(1 : ℚ)] [some (2 : ℚ)] "x**2" 0 1).curve =
      (([(1 : ℚ)].zip [some (2 : ℚ)]).filterMap
        (fun p => p.2.map (fun yv => (p.1, yv)))) ∧
    (create_plot env5 [(1 : ℚ)] [some (2 : ℚ)] "sin(x**2)" 0 1).curve =
      [(1 : ℚ)].map (fun xv => (xv, env5.sqrtPiOver2 * env5.fresnelS xv))
    :=
  ⟨(c5_curve_points_amended env5 [1] [some 2] "x**2" 0 1).1 rfl,
   (c5_curve_points_amended env5 [1] [some 2] "sin(x**2)" 0 1).2 rfl⟩

/-! ## Claim C6 -/

theorem sampleDomain_neg_one_one_ne_zero :
    ∀ xv ∈ sampleDomain (-1) 1, xv ≠ 0 := by
  intro xv hxv
  have hsd : sampleDomain (-1) 1 =
      linspace (-1 - (1 - -1) * (1/5)) (1 + (1 - -1) * (1/5)) 1000 := rfl
  rw [hsd] at hxv
  obtain ⟨i, hi, rfl⟩ := mem_linspace.mp hxv
  intro h0
  have hiq : (i : ℚ) * 14 = 6993 := by
    push_cast at h0
    field_simp at h0
    linarith
  have hin : i * 14 = 6993 := by exact_mod_cast hiq
  omega

theorem main_env6_eq :
    main env6 "1/x" (-1) 1 =
      [UIEvent.showIndefinite (.log (.sym "x")), UIEvent.errorQuad] := by
  have hanyf : ((sampleDomain (-1) 1).map recipYVal).any
      (fun yv => yv.isNone) = false := by
    refine List.any_eq_false.mpr ?_
    intro yv hyv
    obtain ⟨xv, hxv, rfl⟩ := List.mem_map.mp hyv
    rw [recipYVal, if_neg (sampleDomain_neg_one_one_ne_zero xv hxv)]
    simp
  unfold main
  rw [if_neg (by norm_num : ¬ (-1 : ℚ) ≥ 1)]
  simp only [env6, baseEnv]
  rw [hanyf]
  simp only [Bool.false_eq_true, if_false]
  rfl

/-- C6 counterexample: the request `1/x` on `[-1, 1]` does NOT fail
with the non-finite-within-bounds classification — the handler's output
contains no `errorNonFinite` event, because the 1000-point grid misses
`x = 0` and every sampled `1/x` value is finite. -/
theorem c6_one_over_x_counterexample :
    UIEvent.errorNonFinite ∉ main env6 "1/x" (-1) 1 := by
  rw [main_env6_eq]
  simp

/-- C6 (amended): on the request `1/x` with bounds `[-1, 1]`, the
1000-point sample domain contains no zero (the would-be index is
499.5), every sampled y-value of `1/x` is finite, so the non-finite
check passes; the request still fails, but at the quadrature stage —
`scipy.integrate.quad` evaluates the integrand at the midpoint `0`,
where the lambdified `1/x` raises — so the handler shows the symbolic
antiderivative `log(x)` and then emits the quadrature error. -/
theorem c6_one_over_x_quad_failure :
    (sampleDomain (-1) 1).all (fun xv => decide (xv ≠ 0)) = true ∧
    ((sampleDomain (-1) 1).map recipYVal).any (fun yv => yv.isNone)
      = false ∧
    main env6 "1/x" (-1) 1 =
      [UIEvent.showIndefinite (.log (.sym "x")), UIEvent.errorQuad] := by
  refine ⟨?_, ?_, main_env6_eq⟩
  · exact List.all_eq_true.mpr fun xv hxv =>
      decide_eq_true (sampleDomain_neg_one_one_ne_zero xv hxv)
  · refine List.any_eq_false.mpr ?_
    intro yv hyv
    obtain ⟨xv, hxv, rfl⟩ := List.mem_map.mp hyv
    rw [recipYVal, if_neg (sampleDomain_neg_one_one_ne_zero xv hxv)]
    simp

end IntegrationApp
